import Mathlib

/-!
Verification development for `3d_printer_camera.py`, a Raspberry-Pi camera
script that auto-detects an active 3D print from a stream of still images,
records the frame range of the print, assembles it into a timelapse video
and ships the video off (FTP upload or a local completed-timelapse folder).

The embedding below is a shallow model of the script:

* image similarity is external (`compute_ssim`); the model abstracts the
  boolean outcome of each `threshold_check` call as an oracle
  (`simB i` : is picture `i` similar to the baseline image;
  `sim i j` : is picture `i` similar to picture `j`);
* file-system state is a `Finset Nat` of the picture indices currently on
  disk in the stills folder (pictures are named `picNNNNN.jpg` with a
  strictly positive, strictly increasing counter);
* the body of the main polling loop (`main`, lines 362-434) becomes the
  step function `tick`, which also reports the externally observable
  actions of the step as a list of `Event`s in the order the script
  performs them;
* `capture_baseline`, the calibration retry loop, `create_movie` and
  `upload_movie` are modelled as separate functions, with similarity
  scores as rationals and fallible external calls as `Except` values.
-/

/-- Decisions of the stop-detection sliding list `picture_list_check`:
before the list is long enough the script logs "not long enough" and takes
no decision (`pending`); afterwards each push yields a decision. -/
inductive StopDecision where
  | pending : StopDecision
  | notConfirmed : StopDecision
  | confirmed : StopDecision
deriving DecidableEq, Repr

/-- One push into the stop-detection list, mirroring lines 412-421 of
`main`: `picture_list_check.append(vote)`, then if `len > 10` pop the
first entry and decide `confirmed` iff `False not in picture_list_check`,
else no decision yet. Returns the updated list and the decision. -/
def stop_push (l : List Bool) (v : Bool) : List Bool × StopDecision :=
  let l1 := l ++ [v]
  if 10 < l1.length then
    let l2 := l1.tail
    (l2, if l2.all (fun b => b) then StopDecision.confirmed
         else StopDecision.notConfirmed)
  else
    (l1, StopDecision.pending)

/-- Push a whole sequence of votes into an initially empty stop-detection
list, keeping the updated list and the decision returned by the LAST push
(`pending` when no vote was pushed at all). -/
def stop_run (vs : List Bool) : List Bool × StopDecision :=
  vs.foldl (fun p v => stop_push p.1 v) ([], StopDecision.pending)

/-- `begin_timelapse_delay` from the script's `settings` class: the grace
period, in seconds, after recording starts during which all comparison
logic is skipped. -/
def begin_timelapse_delay : Nat := 420

/-- Runtime state mutated by the main polling loop:
the `settings` fields `currently_recording`, `picture_count`,
`recording_start_time`, `recording_start_picture_count`, the two local
lists `beginning_recording_check` and `picture_list_check` of `main`, and
the set of picture indices currently on disk in the stills folder. -/
structure MainState where
  currently_recording : Bool
  picture_count : Nat
  beginning_recording_check : List Bool
  picture_list_check : List Bool
  recording_start_time : Nat
  recording_start_picture_count : Nat
  files : Finset Nat
deriving DecidableEq

/-- Externally observable actions of one loop iteration, in the order the
script performs them. `deleteFrame i` is `os.remove` of picture `i`;
`assemble a b` is the `create_movie` call (frame range starts at the
recorded `recording_start_picture_count = a`, current picture is `b`);
`upload` is the `upload_movie` call; `purgeAll` is
`shutil.rmtree(settings.stills_folder)`. -/
inductive Event where
  | startRecording : Event
  | deleteFrame : Nat → Event
  | assemble : Nat → Nat → Event
  | upload : Event
  | purgeAll : Event
deriving DecidableEq, Repr

/-- One iteration of the polling loop in `main` (lines 362-434).
`simB i` abstracts `threshold_check(pic_i)` (picture `i` similar to the
baseline image), `sim i j` abstracts `threshold_check(pic_i, pic_j)`, and
`now` abstracts `int(time.time())` at this iteration.

The iteration increments `picture_count`, captures the new picture, then:
* if not recording: slide the new baseline vote through the 6-entry
  `beginning_recording_check` list (append + pop(0)); if no `True`
  remains, start recording, stamp `recording_start_time = now` and set
  `recording_start_picture_count` to `picture_count - 7` clamped at 0;
  in either case delete the picture at index `picture_count - 10` if it
  exists (indices are positive, so for `picture_count ≤ 10` the script's
  candidate file name `pic{picture_count-10}` never exists on disk);
* if recording and still inside the grace period: do nothing else;
* if recording and past the grace period: push the vote comparing the new
  picture against the one 7 indices earlier into `picture_list_check`;
  once the list exceeds 10 entries, pop the oldest and, if no `False`
  remains, stop recording, create and upload the movie and purge the
  stills folder. -/
def tick (simB : Nat → Bool) (sim : Nat → Nat → Bool) (now : Nat)
    (s : MainState) : MainState × List Event :=
  let i := s.picture_count + 1
  let files1 := insert i s.files
  if s.currently_recording then
    if now < s.recording_start_time + begin_timelapse_delay then
      ({ s with picture_count := i, files := files1 }, [])
    else
      let l := s.picture_list_check ++ [sim i (i - 7)]
      if 10 < l.length then
        let l2 := l.tail
        if l2.all (fun b => b) then
          ({ s with picture_count := i, picture_list_check := l2,
                    currently_recording := false, files := ∅ },
           [Event.assemble s.recording_start_picture_count i,
            Event.upload, Event.purgeAll])
        else
          ({ s with picture_count := i, picture_list_check := l2,
                    files := files1 }, [])
      else
        ({ s with picture_count := i, picture_list_check := l,
                  files := files1 }, [])
  else
    let checks := (s.beginning_recording_check ++ [simB i]).tail
    let confirmed := checks.all (fun b => !b)
    let evDel : List Event :=
      if 10 < i ∧ (i - 10) ∈ files1 then [Event.deleteFrame (i - 10)]
      else []
    let files2 := if 10 < i then files1.erase (i - 10) else files1
    let base := { s with picture_count := i,
                         beginning_recording_check := checks,
                         files := files2 }
    if confirmed then
      ({ base with currently_recording := true,
                   recording_start_time := now,
                   recording_start_picture_count :=
                     if i < 7 then 0 else i - 7 },
       Event.startRecording :: evDel)
    else
      (base, evDel)

/-- The state at the top of `main`'s polling loop, right after a
successful baseline calibration: not recording, zero pictures taken,
`beginning_recording_check = [True]*6`, `picture_list_check = []`, and no
timelapse pictures on disk yet. -/
def initMainState : MainState where
  currently_recording := false
  picture_count := 0
  beginning_recording_check := List.replicate 6 true
  picture_list_check := []
  recording_start_time := 0
  recording_start_picture_count := 0
  files := ∅

/-- The state after `n` iterations of the polling loop from the start of a
session; `τ m` is the wall-clock time at iteration `m`. -/
def run (simB : Nat → Bool) (sim : Nat → Nat → Bool) (τ : Nat → Nat) :
    Nat → MainState
  | 0 => initMainState
  | n + 1 => (tick simB sim (τ n) (run simB sim τ n)).1

/-- File name of the first baseline probe shot. -/
def baseline1 : String := "baseline1.jpg"

/-- File name of the second baseline probe shot. -/
def baseline2 : String := "baseline2.jpg"

/-- File name of the third baseline probe shot. -/
def baseline3 : String := "baseline3.jpg"

/-- Observable outcome of `capture_baseline` (lines 120-155): whether it
returned `True` (success) or `None` (failure), what `settings.baseline_image`
was set to, and the resulting contents of the stills folder (modelled as a
set of file names). -/
structure BaselineOutcome where
  ok : Bool
  baseline_image : Option String
  stills : Finset String
deriving DecidableEq

/-- `capture_baseline`, with the three pairwise `compute_ssim` scores of
the three probe shots passed in as rationals (`sxy` = score of probe 1 vs
probe 2, `syz` = probe 2 vs probe 3, `szx` = probe 3 vs probe 1) and the
stills folder passed in as a set of file names. The function captures the
three probe images `baseline1.jpg`, `baseline2.jpg`, `baseline3.jpg`
(adding them to the folder), then nests the three threshold comparisons
exactly as lines 138-155 do. It deletes no file on any path; on success
`settings.baseline_image` is set to the first probe. -/
def capture_baseline (sxy syz szx thr : ℚ) (stills : Finset String) :
    BaselineOutcome :=
  let stills1 := insert baseline1 (insert baseline2 (insert baseline3 stills))
  if thr < sxy then
    if thr < syz then
      if thr < szx then
        { ok := true, baseline_image := some baseline1,
          stills := stills1 }
      else
        { ok := false, baseline_image := none, stills := stills1 }
    else
      { ok := false, baseline_image := none, stills := stills1 }
  else
    { ok := false, baseline_image := none, stills := stills1 }

/-- The calibration retry loop at lines 353-356 of `main`:
`while True: capture_baseline(); break when it did not return None`.
`scores k` gives the three pairwise scores `compute_ssim` would produce on
attempt `k`; the loop is modelled with explicit fuel, returning the index
of the first successful attempt at or after `start`, or `none` when the
fuel runs out before any attempt succeeds (the real loop simply keeps
retrying forever). Only when the loop returns does `main` fall through to
the picture-polling loop. -/
def calibrate_loop (scores : Nat → ℚ × ℚ × ℚ) (thr : ℚ) :
    Nat → Nat → Option Nat
  | _, 0 => none
  | start, fuel + 1 =>
    if (capture_baseline (scores start).1 (scores start).2.1
        (scores start).2.2 thr ∅).ok then
      some start
    else
      calibrate_loop scores thr (start + 1) fuel

/-- Where the finished `timelapse.avi` ends up after `upload_movie`:
deleted locally after a successful FTP upload, or moved into
`settings.completed_timelapse_folder`. -/
inductive VideoDest where
  | removedLocal : VideoDest
  | completedFolder : VideoDest
deriving DecidableEq, Repr

/-- `create_movie` (lines 259-277): the whole body sits in a
`try/except` whose handler logs the error and returns, so whatever the
external encoder invocation does (`assembly`), the function itself always
returns normally. -/
def create_movie (assembly : Except String Unit) : Except String Unit :=
  match assembly with
  | Except.ok _ => Except.ok ()
  | Except.error _ => Except.ok ()

/-- `upload_movie` (lines 208-256). `upload_skip` is `settings.upload_skip`
(set when the FTP settings are absent); `ftp` is the outcome of the FTP
block inside the `try` (connect, login, store, delete the local file).
When `upload_skip` is false and the FTP block succeeds, the function
returns with the local file removed; when the FTP block raises, the
exception is caught and logged and control falls through to the code that
moves the video into the completed-timelapse folder; when `upload_skip` is
true the FTP block is never entered and the video is moved directly. The
function never propagates an exception. -/
def upload_movie (upload_skip : Bool) (ftp : Except String Unit) :
    Except String Unit × VideoDest :=
  if upload_skip then
    (Except.ok (), VideoDest.completedFolder)
  else
    match ftp with
    | Except.ok _ => (Except.ok (), VideoDest.removedLocal)
    | Except.error _ => (Except.ok (), VideoDest.completedFolder)

/-- The tail of a successful recording session (lines 425-431 of `main`
plus the restart at lines 449-450): `create_movie()`, `upload_movie()`,
`shutil.rmtree(stills)`, `break` out of the polling loop, and the outer
`while True` immediately calls `main()` again, which resets every runtime
field. An uncaught exception from either helper would abort this sequence;
the result records the state the next session starts from and where the
video went. -/
def finalize_session (assembly : Except String Unit) (upload_skip : Bool)
    (ftp : Except String Unit) : Except String (MainState × VideoDest) :=
  match create_movie assembly with
  | Except.error e => Except.error e
  | Except.ok _ =>
    match upload_movie upload_skip ftp with
    | (Except.error e, _) => Except.error e
    | (Except.ok _, dest) => Except.ok (initMainState, dest)

/-- Whether an event destroys frames on disk: a single `os.remove` of a
picture, or the final `shutil.rmtree` of the whole stills folder. -/
def isDeletionEvent : Event → Bool
  | Event.deleteFrame _ => true
  | Event.purgeAll => true
  | _ => false

/-- The deletion events that occur strictly before the first `assemble`
event (the `create_movie` invocation) of an event list. -/
def deletionsBeforeAssemble : List Event → List Event
  | [] => []
  | Event.assemble _ _ :: _ => []
  | e :: rest =>
    (if isDeletionEvent e then [e] else []) ++ deletionsBeforeAssemble rest

/-- A lag-7 similarity oracle: picture `a` is similar to picture `b`
exactly when `b` is 7 behind `a`; every other pair (in particular each of
the five most recent pictures compared with the current one) is
dissimilar. Used to exercise the stop-detection logic. -/
def simLagOnly : Nat → Nat → Bool := fun a b => decide (b + 7 = a)

/-- A concrete mid-recording state: 30 pictures taken, recording since
time 0 with recorded start index 13, and a stop-detection list holding 10
sustained-similarity votes. -/
def recState : MainState where
  currently_recording := true
  picture_count := 30
  beginning_recording_check := List.replicate 6 false
  picture_list_check := List.replicate 10 true
  recording_start_time := 0
  recording_start_picture_count := 13
  files := ∅

/-- A concrete armed state after 19 pictures whose start-detection window
holds one leading `True` (still-similar) vote followed by five
dissimilarity votes, so the next dissimilar picture confirms the start. -/
def armedState : MainState where
  currently_recording := false
  picture_count := 19
  beginning_recording_check := [true, false, false, false, false, false]
  picture_list_check := []
  recording_start_time := 0
  recording_start_picture_count := 0
  files := ∅

/-- Per-attempt pairwise similarity scores with one unstable first attempt
(all three scores 0, below any positive threshold) followed by stable
attempts (all three scores 1). Used to exercise the calibration retry
loop. -/
def scoresW : Nat → ℚ × ℚ × ℚ := fun k => if k = 0 then (0, 0, 0) else (1, 1, 1)

/-!  Theorems.  -/

theorem stop_run_append (vs : List Bool) (v : Bool) :
    stop_run (vs ++ [v]) = stop_push (stop_run vs).1 v := by
  simp [stop_run, List.foldl_append]

/-- After any vote sequence, the stop-detection list holds exactly the
last 10 votes (all of them while there are at most 10). -/
theorem stop_run_state (vs : List Bool) :
    (stop_run vs).1 =
      if vs.length ≤ 10 then vs else vs.drop (vs.length - 10) := by
  induction vs using List.reverseRecOn with
  | nil => simp [stop_run]
  | append_singleton l v ih =>
    rw [stop_run_append, stop_push]
    simp only [ih]
    by_cases h : l.length ≤ 10
    · rw [if_pos h]
      by_cases h2 : l.length = 10
      · have hlen : 10 < (l ++ [v]).length := by simp [h2]
        rw [if_pos hlen]
        have hne : ¬ (l ++ [v]).length ≤ 10 := by simp [h2]
        rw [if_neg hne]
        simp [h2, List.drop_one]
      · have hlen : ¬ 10 < (l ++ [v]).length := by simp; omega
        rw [if_neg hlen]
        have hok : (l ++ [v]).length ≤ 10 := by simp; omega
        rw [if_pos hok]
    · rw [if_neg h]
      have hk : l.length - 10 ≤ l.length := by omega
      have hcat : List.drop (l.length - 10) l ++ [v]
          = List.drop (l.length - 10) (l ++ [v]) :=
        (List.drop_append_of_le_length hk).symm
      have hlen10 : (List.drop (l.length - 10) l).length = 10 := by
        simp; omega
      have hgt : 10 < (List.drop (l.length - 10) l ++ [v]).length := by
        simp [hlen10]
      rw [if_pos hgt]
      have hne : ¬ (l ++ [v]).length ≤ 10 := by simp; omega
      rw [if_neg hne]
      rw [hcat, List.tail_drop]
      have harith : l.length - 10 + 1 = (l ++ [v]).length - 10 := by
        simp only [List.length_append, List.length_singleton]
        omega
      rw [harith]

/-- C4 counterexample: the claim says the code's 10-entry stop window
decides on its 10th push (pending only for the first 9 pushes, and on the
10th push `confirmed` exactly when no false vote is present). Pushing 10
`True` votes into the empty list contains no false vote, yet the 10th push
still returns `pending`, because the code only decides once
`len(picture_list_check) > 10`, i.e. from the 11th push on. -/
theorem stop_window_tenth_push_pending_cex :
    (stop_run (List.replicate 10 true)).2 = StopDecision.pending ∧
    StopDecision.pending ≠ StopDecision.confirmed := by
  decide

/-- C4 (amended): the stop-detection list returns `pending` for the first
10 pushes (not the first 9), and on the 11th push and every push
thereafter returns a decision determined solely by the last 10 votes:
`confirmed` exactly when no false vote is present among them. -/
theorem stop_run_decision_spec (vs : List Bool) :
    (stop_run vs).2 =
      if vs.length ≤ 10 then StopDecision.pending
      else if (vs.drop (vs.length - 10)).all (fun b => b) then
        StopDecision.confirmed
      else StopDecision.notConfirmed := by
  cases vs using List.reverseRecOn with
  | nil => simp [stop_run]
  | append_singleton l v =>
    rw [stop_run_append, stop_push]
    simp only [stop_run_state l]
    by_cases h : l.length ≤ 10
    · rw [if_pos h]
      by_cases h2 : l.length = 10
      · have hlen : 10 < (l ++ [v]).length := by simp [h2]
        rw [if_pos hlen]
        have hne : ¬ (l ++ [v]).length ≤ 10 := by simp [h2]
        rw [if_neg hne]
        have hdrop : List.drop ((l ++ [v]).length - 10) (l ++ [v])
            = (l ++ [v]).tail := by
          rw [← List.drop_one]
          have h1 : (l ++ [v]).length - 10 = 1 := by simp [h2]
          rw [h1]
        rw [hdrop]
      · have hlen : ¬ 10 < (l ++ [v]).length := by simp; omega
        rw [if_neg hlen]
        have hok : (l ++ [v]).length ≤ 10 := by simp; omega
        rw [if_pos hok]
    · rw [if_neg h]
      have hk : l.length - 10 ≤ l.length := by omega
      have hcat : List.drop (l.length - 10) l ++ [v]
          = List.drop (l.length - 10) (l ++ [v]) :=
        (List.drop_append_of_le_length hk).symm
      have hlen10 : (List.drop (l.length - 10) l).length = 10 := by
        simp; omega
      have hgt : 10 < (List.drop (l.length - 10) l ++ [v]).length := by
        simp [hlen10]
      rw [if_pos hgt]
      have hne : ¬ (l ++ [v]).length ≤ 10 := by simp; omega
      rw [if_neg hne]
      rw [hcat, List.tail_drop]
      have harith : l.length - 10 + 1 = (l ++ [v]).length - 10 := by
        simp only [List.length_append, List.length_singleton]
        omega
      rw [harith]

/-- Claim C5: during the `begin_timelapse_delay` grace period of a
recording session, a loop iteration pushes no stop-window vote
(`picture_list_check` is unchanged), performs no state transition
(`currently_recording` and the recording bookkeeping are unchanged), emits
no events, and deletes no frame file (the files on disk only grow by the
newly captured picture), regardless of what any comparison would
return. -/
theorem grace_period_isolated (simB : Nat → Bool) (sim : Nat → Nat → Bool)
    (now : Nat) (s : MainState)
    (hrec : s.currently_recording = true)
    (hgrace : now < s.recording_start_time + begin_timelapse_delay) :
    (tick simB sim now s).1.picture_list_check = s.picture_list_check ∧
    (tick simB sim now s).1.currently_recording = true ∧
    (tick simB sim now s).1.recording_start_time = s.recording_start_time ∧
    (tick simB sim now s).1.recording_start_picture_count
      = s.recording_start_picture_count ∧
    (tick simB sim now s).2 = [] ∧
    s.files ⊆ (tick simB sim now s).1.files := by
  simp [tick, hrec, hgrace, Finset.subset_insert]

/-- Witness for C5: a concrete mid-recording state inside the grace
period (recording started at time 0, current time 100 < 420). -/
theorem grace_period_isolated_witness :
    (tick (fun _ => true) (fun _ _ => true) 100 recState).1.picture_list_check
      = recState.picture_list_check ∧
    (tick (fun _ => true) (fun _ _ => true) 100 recState).1.currently_recording
      = true ∧
    (tick (fun _ => true) (fun _ _ => true) 100 recState).1.recording_start_time
      = recState.recording_start_time ∧
    (tick (fun _ => true) (fun _ _ => true) 100
        recState).1.recording_start_picture_count
      = recState.recording_start_picture_count ∧
    (tick (fun _ => true) (fun _ _ => true) 100 recState).2 = [] ∧
    recState.files ⊆ (tick (fun _ => true) (fun _ _ => true) 100 recState).1.files :=
  grace_period_isolated (fun _ => true) (fun _ _ => true) 100 recState rfl
    (by decide)

/-- Counterexample for C2: the claim says that when the start window
confirms at frame index `i`, the recorded start index equals
`max(0, i - start_window_capacity)` with `start_window_capacity` the
capacity of the window actually in use. The window in use
(`beginning_recording_check`) has capacity 6, and here confirmation
happens at index `i = 20`, yet the script records
`picture_count - 7 = 13`, not `max(0, 20 - 6) = 14`. -/
theorem recording_start_index_cex :
    (tick (fun _ => false) simLagOnly 500 armedState).1.currently_recording
      = true ∧
    (tick (fun _ => false) simLagOnly 500 armedState).1.picture_count = 20 ∧
    armedState.beginning_recording_check.length = 6 ∧
    (tick (fun _ => false) simLagOnly 500
        armedState).1.recording_start_picture_count = 13 ∧
    ((13 : ℤ) ≠ max 0 ((20 : ℤ) - 6)) := by
  decide

/-- Claim C2 (amended): at the ARMED-to-RECORDING transition at current
frame index `i = picture_count + 1`, the recorded recording start index
equals `max(0, i - 7)`, i.e. the current index minus the window capacity
PLUS ONE (the capacity of the window in use is 6, but lines 382-386
subtract 7). -/
theorem recording_start_index_spec (simB : Nat → Bool)
    (sim : Nat → Nat → Bool) (now : Nat) (s : MainState)
    (hidle : s.currently_recording = false)
    (hconf : (tick simB sim now s).1.currently_recording = true) :
    ((tick simB sim now s).1.recording_start_picture_count : ℤ)
      = max 0 ((s.picture_count + 1 : ℤ) - 7) := by
  simp only [tick, hidle] at hconf ⊢
  simp only [Bool.false_eq_true, if_false] at hconf ⊢
  by_cases hc : ((s.beginning_recording_check
      ++ [simB (s.picture_count + 1)]).tail.all (fun b => !b)) = true
  · simp only [hc, if_true] at hconf ⊢
    by_cases h7 : s.picture_count + 1 < 7
    · simp only [h7, if_true]
      rw [max_eq_left (by omega)]
      simp
    · simp only [h7, if_false]
      rw [max_eq_right (by omega)]
      omega
  · simp only [hc] at hconf
    simp [hidle] at hconf

/-- Witness for C2 (amended): confirmation at frame index 8 records start
index `1 = max(0, 8 - 7)`. -/
theorem recording_start_index_witness :
    ((tick (fun _ => false) simLagOnly 50
        { currently_recording := false, picture_count := 7,
          beginning_recording_check := List.replicate 6 false,
          picture_list_check := [], recording_start_time := 0,
          recording_start_picture_count := 0,
          files := ∅ }).1.recording_start_picture_count : ℤ)
      = max 0 ((7 + 1 : ℤ) - 7) := by
  have h := recording_start_index_spec (fun _ => false) simLagOnly 50
    { currently_recording := false, picture_count := 7,
      beginning_recording_check := List.replicate 6 false,
      picture_list_check := [], recording_start_time := 0,
      recording_start_picture_count := 0, files := ∅ } rfl (by decide)
  simpa using h

/-- Counterexample for C1: the claim says the machine moves out of
RECORDING (triggering movie creation) only if, in addition to the stop
window, an independent final-confirmation pass comparing the current
frame against each of the last five frames individually also confirms,
and that it remains in RECORDING whenever any of those five comparisons
is dissimilar. Here the oracle `simLagOnly` makes the current picture 31
similar ONLY to its lag-7 partner: every one of the five comparisons
against the last five pictures (30, 29, 28, 27, 26) is dissimilar, yet
after the grace period (time 1000 ≥ 0 + 420) the script still leaves
RECORDING and dispatches assembly, because no such final-confirmation
pass exists in the code. -/
theorem finalize_without_final_fanout_cex :
    (tick (fun _ => false) simLagOnly 1000 recState).1.currently_recording
      = false ∧
    Event.assemble 13 31 ∈ (tick (fun _ => false) simLagOnly 1000 recState).2 ∧
    1000 ≥ recState.recording_start_time + begin_timelapse_delay ∧
    simLagOnly 31 30 = false ∧ simLagOnly 31 29 = false ∧
    simLagOnly 31 28 = false ∧ simLagOnly 31 27 = false ∧
    simLagOnly 31 26 = false := by
  decide

/-- Claim C1 (amended): while recording and after the grace period, the
machine leaves RECORDING and dispatches movie creation exactly when the
stop window confirms sustained similarity — that is, when after pushing
the lag-7 vote the stop list exceeds 10 entries and, after popping the
oldest, every remaining vote is `True`. No second, independent
final-confirmation pass against the last five frames is performed. -/
theorem finalize_iff_stop_window (simB : Nat → Bool)
    (sim : Nat → Nat → Bool) (now : Nat) (s : MainState)
    (hrec : s.currently_recording = true)
    (hpast : s.recording_start_time + begin_timelapse_delay ≤ now) :
    ((tick simB sim now s).1.currently_recording = false ↔
      (10 < (s.picture_list_check
              ++ [sim (s.picture_count + 1) (s.picture_count + 1 - 7)]).length ∧
       (s.picture_list_check
          ++ [sim (s.picture_count + 1) (s.picture_count + 1 - 7)]).tail.all
            (fun b => b) = true)) ∧
    (Event.assemble s.recording_start_picture_count (s.picture_count + 1)
        ∈ (tick simB sim now s).2 ↔
      (10 < (s.picture_list_check
              ++ [sim (s.picture_count + 1) (s.picture_count + 1 - 7)]).length ∧
       (s.picture_list_check
          ++ [sim (s.picture_count + 1) (s.picture_count + 1 - 7)]).tail.all
            (fun b => b) = true)) := by
  have hnot : ¬ now < s.recording_start_time + begin_timelapse_delay :=
    Nat.not_lt.mpr hpast
  simp [tick, hrec, hnot]
  split_ifs with h1 h2 <;> simp_all

/-- Witness for C1 (amended): with every comparison similar, the stop
window (10 previous votes plus the new one) confirms and the machine
leaves RECORDING. -/
theorem finalize_iff_stop_window_witness :
    (tick (fun _ => true) (fun _ _ => true) 2000 recState).1.currently_recording
      = false :=
  (finalize_iff_stop_window (fun _ => true) (fun _ _ => true) 2000 recState
    rfl (by decide)).1.mpr (by decide)

theorem tick_picture_count (simB : Nat → Bool) (sim : Nat → Nat → Bool)
    (now : Nat) (s : MainState) :
    (tick simB sim now s).1.picture_count = s.picture_count + 1 := by
  rcases hr : s.currently_recording <;> simp [tick, hr] <;> split_ifs <;> rfl

theorem run_picture_count (simB : Nat → Bool) (sim : Nat → Nat → Bool)
    (τ : Nat → Nat) (n : Nat) :
    (run simB sim τ n).picture_count = n := by
  induction n with
  | zero => rfl
  | succ n ih => rw [run, tick_picture_count, ih]

theorem tick_files_armed (simB : Nat → Bool) (sim : Nat → Nat → Bool)
    (now : Nat) (s : MainState) (hrec : s.currently_recording = false) :
    (tick simB sim now s).1.files =
      if 10 < s.picture_count + 1 then
        (insert (s.picture_count + 1) s.files).erase (s.picture_count + 1 - 10)
      else insert (s.picture_count + 1) s.files := by
  simp [tick, hrec]
  split_ifs <;> rfl

theorem tick_window_armed (simB : Nat → Bool) (sim : Nat → Nat → Bool)
    (now : Nat) (s : MainState) (hrec : s.currently_recording = false) :
    (tick simB sim now s).1.beginning_recording_check =
      (s.beginning_recording_check ++ [simB (s.picture_count + 1)]).tail := by
  simp [tick, hrec]
  split_ifs <;> rfl

theorem tick_confirm_of_start (simB : Nat → Bool) (sim : Nat → Nat → Bool)
    (now : Nat) (s : MainState) (hrec : s.currently_recording = false)
    (h2 : (tick simB sim now s).1.currently_recording = true) :
    ((s.beginning_recording_check ++ [simB (s.picture_count + 1)]).tail.all
      (fun b => !b)) = true := by
  by_cases hmem : true ∈ (s.beginning_recording_check
      ++ [simB (s.picture_count + 1)]).tail
  · exfalso
    simp [tick, hrec, hmem] at h2
  · simp only [List.all_eq_true]
    intro b hb
    cases b
    · rfl
    · exact absurd hb hmem

theorem run_files_bounds (simB : Nat → Bool) (sim : Nat → Nat → Bool)
    (τ : Nat → Nat) (n : Nat)
    (h : ∀ m, m < n → (run simB sim τ m).currently_recording = false) :
    ∀ j ∈ (run simB sim τ n).files, 1 ≤ j ∧ j ≤ n ∧ n ≤ j + 9 := by
  induction n with
  | zero =>
    intro j hj
    simp [run, initMainState] at hj
  | succ n ih =>
    have hn := h n (Nat.lt_succ_self n)
    have ih2 := ih (fun m hm => h m (Nat.lt_succ_of_lt hm))
    intro j hj
    rw [run] at hj
    rw [tick_files_armed simB sim (τ n) _ hn,
        run_picture_count simB sim τ n] at hj
    by_cases h10 : 10 < n + 1
    · rw [if_pos h10] at hj
      rcases Finset.mem_erase.mp hj with ⟨hne, hj2⟩
      rcases Finset.mem_insert.mp hj2 with hj3 | hj3
      · omega
      · have := ih2 j hj3
        omega
    · rw [if_neg h10] at hj
      rcases Finset.mem_insert.mp hj with hj3 | hj3
      · omega
      · have := ih2 j hj3
        omega

theorem run_window_armed (simB : Nat → Bool) (sim : Nat → Nat → Bool)
    (τ : Nat → Nat) (n : Nat)
    (h : ∀ m, m < n → (run simB sim τ m).currently_recording = false) :
    (run simB sim τ n).beginning_recording_check =
      (List.replicate 6 true
        ++ (List.range n).map (fun k => simB (k + 1))).drop n := by
  induction n with
  | zero => simp [run, initMainState]
  | succ n ih =>
    have hn := h n (Nat.lt_succ_self n)
    have ih2 := ih (fun m hm => h m (Nat.lt_succ_of_lt hm))
    rw [run, tick_window_armed simB sim (τ n) _ hn,
        run_picture_count simB sim τ n, ih2]
    have hle : n ≤ (List.replicate 6 true
        ++ (List.range n).map (fun k => simB (k + 1))).length := by
      simp
      omega
    rw [← List.drop_append_of_le_length hle, List.tail_drop, List.range_succ]
    simp [List.append_assoc]

/-- Claim C6: retention policy. First conjunct: while the session has
never left the not-recording phase (IDLE/ARMED), every frame whose index
is more than the retention lookback of 10 behind the current picture
count has been deleted from disk. Second conjunct: on any iteration that
starts while recording, no deletion (neither a single-frame `os.remove`
nor the stills-folder purge) is dispatched before the `assemble` event —
the only deletions of a recording session happen after movie creation is
invoked. -/
theorem retention_policy_spec :
    (∀ (simB : Nat → Bool) (sim : Nat → Nat → Bool) (τ : Nat → Nat) (n j : Nat),
      (∀ m, m ≤ n → (run simB sim τ m).currently_recording = false) →
      j + 10 < (run simB sim τ n).picture_count →
      j ∉ (run simB sim τ n).files) ∧
    (∀ (simB : Nat → Bool) (sim : Nat → Nat → Bool) (now : Nat) (s : MainState),
      s.currently_recording = true →
      deletionsBeforeAssemble (tick simB sim now s).2 = []) := by
  constructor
  · intro simB sim τ n j h hidx hj
    have hb := run_files_bounds simB sim τ n
      (fun m hm => h m (Nat.le_of_lt hm)) j hj
    rw [run_picture_count] at hidx
    omega
  · intro simB sim now s hrec
    simp [tick, hrec]
    split_ifs <;> simp [deletionsBeforeAssemble]

/-- Witness for C6: after 13 armed iterations picture 2 is gone from
disk, and a finalizing iteration from a concrete recording state
dispatches no deletion before assembly. -/
theorem retention_policy_witness :
    (2 ∉ (run (fun _ => true) simLagOnly (fun n => n) 13).files) ∧
    deletionsBeforeAssemble
      (tick (fun _ => true) simLagOnly 9999 recState).2 = [] :=
  ⟨retention_policy_spec.1 (fun _ => true) simLagOnly (fun n => n) 13 2
      (by decide) (by decide),
   retention_policy_spec.2 (fun _ => true) simLagOnly 9999 recState rfl⟩

/-- Claim C9: each session starts with the start-detection window
pre-filled to its capacity of 6 with `True` ("still similar to baseline")
votes, so if the machine has stayed out of RECORDING through iteration
`n` and transitions on iteration `n + 1`, then at least 6 pictures have
been captured since calibration (`n + 1 ≥ 6`); consequently the clamp of
the recording start index (which fires exactly when `picture_count < 7`)
fires only when confirmation occurs on exactly the 6th picture. -/
theorem start_window_prefill_spec :
    initMainState.beginning_recording_check = List.replicate 6 true ∧
    ∀ (simB : Nat → Bool) (sim : Nat → Nat → Bool) (τ : Nat → Nat) (n : Nat),
      (∀ m, m ≤ n → (run simB sim τ m).currently_recording = false) →
      (run simB sim τ (n + 1)).currently_recording = true →
      (6 ≤ n + 1 ∧ (n + 1 < 7 ↔ n + 1 = 6)) := by
  constructor
  · rfl
  · intro simB sim τ n h hrec1
    have hn : (run simB sim τ n).currently_recording = false := h n (le_refl n)
    rw [run] at hrec1
    have hconf := tick_confirm_of_start simB sim (τ n) _ hn hrec1
    have hwin := run_window_armed simB sim τ n (fun m hm => h m (Nat.le_of_lt hm))
    rw [run_picture_count simB sim τ n, hwin] at hconf
    have hle : n ≤ (List.replicate 6 true
        ++ (List.range n).map (fun k => simB (k + 1))).length := by
      simp
      omega
    rw [← List.drop_append_of_le_length hle, List.tail_drop] at hconf
    have h6 : 6 ≤ n + 1 := by
      by_contra hlt
      push_neg at hlt
      have hmem : true ∈ List.drop (n + 1) ((List.replicate 6 true
          ++ (List.range n).map (fun k => simB (k + 1))) ++ [simB (n + 1)]) := by
        rw [List.append_assoc,
            List.drop_append_of_le_length
              (show n + 1 ≤ (List.replicate 6 true).length by simp; omega)]
        apply List.mem_append_left
        rw [List.drop_replicate]
        exact List.mem_replicate.mpr ⟨by omega, rfl⟩
      have hfalse := List.all_eq_true.mp hconf true hmem
      simp at hfalse
    exact ⟨h6, by omega⟩

/-- Witness for C9: with every baseline comparison dissimilar from the
first picture on, the machine stays out of RECORDING through iteration 5
and transitions exactly on iteration 6. -/
theorem start_window_prefill_witness :
    initMainState.beginning_recording_check = List.replicate 6 true ∧
    (6 ≤ 5 + 1 ∧ (5 + 1 < 7 ↔ 5 + 1 = 6)) :=
  ⟨start_window_prefill_spec.1,
   start_window_prefill_spec.2 (fun _ => false) simLagOnly (fun n => n) 5
     (by decide) (by decide)⟩

/-- Counterexample for C3: the claim says that when any pairwise score
does not exceed the threshold, calibration fails AND all three probe
frames are removed from storage. With scores `(0.99, 0.99, 0.80)` and
threshold `0.96`, calibration does fail, but all three probe files are
still in the stills folder afterwards — `capture_baseline` deletes
nothing on any path (the probes are only overwritten by the next retry,
or removed by the keyboard-interrupt handler). The success half of the
claim does hold: scores `(0.99, 0.99, 0.99)` succeed. -/
theorem capture_baseline_failure_keeps_probes_cex :
    (capture_baseline (99/100) (99/100) (80/100) (96/100) ∅).ok = false ∧
    baseline1 ∈ (capture_baseline (99/100) (99/100) (80/100)
        (96/100) ∅).stills ∧
    baseline2 ∈ (capture_baseline (99/100) (99/100) (80/100)
        (96/100) ∅).stills ∧
    baseline3 ∈ (capture_baseline (99/100) (99/100) (80/100)
        (96/100) ∅).stills ∧
    (capture_baseline (99/100) (99/100) (99/100) (96/100) ∅).ok = true := by
  have h1 : (96 / 100 : ℚ) < 99 / 100 := by norm_num
  have h2 : ¬ ((96 / 100 : ℚ) < 80 / 100) := by norm_num
  have hfail : capture_baseline (99/100) (99/100) (80/100) (96/100) ∅
      = { ok := false, baseline_image := none,
          stills := insert baseline1 (insert baseline2
            (insert baseline3 ∅)) } := by
    unfold capture_baseline
    rw [if_pos h1, if_pos h1, if_neg h2]
  have hsucc : (capture_baseline (99/100) (99/100) (99/100) (96/100) ∅).ok
      = true := by
    unfold capture_baseline
    rw [if_pos h1, if_pos h1, if_pos h1]
  rw [hfail]
  refine ⟨rfl, by simp, by simp, by simp, hsucc⟩

/-- Claim C3 (amended): baseline calibration over the three probe frames
succeeds if and only if all three pairwise similarity scores exceed the
threshold, and on success the baseline references the first probe frame;
but on failure the three probe frames are NOT removed from storage — the
stills folder always ends up containing all three probes, on the success
path as well as on every failure path. -/
theorem capture_baseline_spec (sxy syz szx thr : ℚ) (stills : Finset String) :
    ((capture_baseline sxy syz szx thr stills).ok = true ↔
      (thr < sxy ∧ thr < syz ∧ thr < szx)) ∧
    (capture_baseline sxy syz szx thr stills).stills =
      insert baseline1 (insert baseline2 (insert baseline3 stills)) ∧
    ((capture_baseline sxy syz szx thr stills).ok = true →
      (capture_baseline sxy syz szx thr stills).baseline_image
        = some baseline1) := by
  unfold capture_baseline
  split_ifs <;> simp_all

/-- Witness for C3 (amended): with all pairwise scores 1 and threshold 0,
calibration succeeds and the baseline references the first probe. -/
theorem capture_baseline_witness :
    (capture_baseline 1 1 1 0 ∅).baseline_image = some baseline1 :=
  (capture_baseline_spec 1 1 1 0 ∅).2.2 (by decide)

/-- Claim C8: the polling loop that captures and compares timelapse
frames is entered only after a calibration attempt in which all three
pairwise checks passed: whenever the calibration retry loop terminates
with attempt `n`, attempt `n`'s three pairwise checks all passed and
every earlier attempt from `start` on failed (the loop retries on every
failure without bound — with any amount of fuel it never gives up while
attempts keep failing, and never reports success for a failed
attempt). -/
theorem calibrate_loop_spec (scores : Nat → ℚ × ℚ × ℚ) (thr : ℚ)
    (start fuel n : Nat)
    (h : calibrate_loop scores thr start fuel = some n) :
    (capture_baseline (scores n).1 (scores n).2.1 (scores n).2.2 thr ∅).ok
      = true ∧
    start ≤ n ∧
    ∀ m, start ≤ m → m < n →
      (capture_baseline (scores m).1 (scores m).2.1 (scores m).2.2 thr ∅).ok
        = false := by
  induction fuel generalizing start with
  | zero => simp [calibrate_loop] at h
  | succ fuel ih =>
    rw [calibrate_loop] at h
    by_cases hok : (capture_baseline (scores start).1 (scores start).2.1
        (scores start).2.2 thr ∅).ok = true
    · rw [if_pos hok] at h
      cases h
      exact ⟨hok, le_refl _, fun m h1 h2 => absurd h1 (by omega)⟩
    · rw [if_neg hok] at h
      have hrest := ih (start + 1) h
      refine ⟨hrest.1, by omega, ?_⟩
      intro m h1 h2
      by_cases hm : m = start
      · subst hm
        simp at hok
        exact hok
      · exact hrest.2.2 m (by omega) h2

/-- Witness for C8: with an unstable first attempt and a stable second
one, the loop settles on attempt 1, whose checks all passed, after
attempt 0 failed. -/
theorem calibrate_loop_witness :
    (capture_baseline (scoresW 1).1 (scoresW 1).2.1 (scoresW 1).2.2 0 ∅).ok
      = true ∧
    0 ≤ 1 ∧
    ∀ m, 0 ≤ m → m < 1 →
      (capture_baseline (scoresW m).1 (scoresW m).2.1 (scoresW m).2.2 0 ∅).ok
        = false :=
  calibrate_loop_spec scoresW 0 0 3 1 (by decide)

/-- Claim C7: neither an assembly failure nor a transfer failure
propagates — the end-of-session sequence always completes and the next
session starts from the fresh initial state, whatever the external
encoder or FTP outcomes; and on a transfer failure the finished video is
moved into the completed-timelapse folder rather than discarded. -/
theorem finalize_session_spec (assembly : Except String Unit)
    (upload_skip : Bool) (ftp : Except String Unit) :
    finalize_session assembly upload_skip ftp
      = Except.ok (initMainState, (upload_movie upload_skip ftp).2) ∧
    (∀ e, ftp = Except.error e →
      (upload_movie upload_skip ftp).2 = VideoDest.completedFolder) := by
  cases assembly <;> cases ftp <;> cases upload_skip <;>
    simp [finalize_session, create_movie, upload_movie]

/-- Witness for C7: with both the encoder and the FTP transfer failing,
the session still resets to the initial state and the video lands in the
completed-timelapse folder. -/
theorem finalize_session_witness :
    finalize_session (Except.error ("encoder failed")) false
        (Except.error ("ftp refused"))
      = Except.ok (initMainState, VideoDest.completedFolder) := by
  have h := finalize_session_spec (Except.error ("encoder failed")) false
    (Except.error ("ftp refused"))
  have h2 := h.2 ("ftp refused") rfl
  rw [h.1, h2]

/-- Claim C10: the finished video is moved into the completed-timelapse
folder exactly when upload is skipped (no FTP settings) or the FTP
process raises an error; it is removed locally (with nothing placed in
the completed folder) exactly when upload is not skipped and the FTP
process succeeds. -/
theorem upload_movie_dest_spec (upload_skip : Bool)
    (ftp : Except String Unit) :
    ((upload_movie upload_skip ftp).2 = VideoDest.completedFolder ↔
      (upload_skip = true ∨ ∃ e, ftp = Except.error e)) ∧
    ((upload_movie upload_skip ftp).2 = VideoDest.removedLocal ↔
      (upload_skip = false ∧ ftp = Except.ok ())) := by
  cases ftp <;> cases upload_skip <;> simp [upload_movie]

/-- Witness for C10: a failed FTP process with upload not skipped sends
the video to the completed-timelapse folder. -/
theorem upload_movie_dest_witness :
    (upload_movie false (Except.error ("ftp down"))).2
      = VideoDest.completedFolder :=
  (upload_movie_dest_spec false (Except.error ("ftp down"))).1.mpr
    (Or.inr ⟨"ftp down", rfl⟩)
